import Mathlib

/-
Shallow embedding of the 6502 emulator core
(src/6502_emulator_core/src/{cpu.rs, memory.rs, ops.rs}).

Machine integers are modelled as Nat with explicit reduction modulo the
type width at every operation where Rust would wrap (release semantics of
u8 / u16 / u32 arithmetic).  The cycle counter is a u32 in the source, so
every `cycles -= k` is modelled as wrapping subtraction modulo 2^32.
-/

/-- Byte-addressable memory (the Memory trait of memory.rs, 64 KiB).
The Rust interface stores and returns u8, so reads and writes are masked
to 8 bits here; the address space is indexed by Nat (u16 in the source). -/
def Mem : Type := Nat → Nat

/-- Memory read; returns a byte because the source interface returns u8. -/
def Mem.read (m : Mem) (address : Nat) : Nat := m address % 256

/-- Memory write of a byte value (u8 in the source interface). -/
def Mem.write (m : Mem) (address value : Nat) : Mem :=
  fun a => if a = address then value % 256 else a |> m

/-- Wrapping subtraction of a small constant on the u32 cycle counter:
`cycles -= k` in Rust release semantics, modelled modulo 2^32. -/
def wsub (c k : Nat) : Nat := (c + (4294967296 - k)) % 4294967296

/-- The seven CPU status flags of the CpuStatusFlags bitflags set
(bit 5 of the packed byte is unused). -/
structure CpuStatusFlags where
  carry : Bool
  zero : Bool
  irqDisable : Bool
  decimalMode : Bool
  breakCommand : Bool
  overflow : Bool
  negative : Bool
deriving DecidableEq

/-- The empty flag set (CpuStatusFlags::default). -/
def CpuStatusFlags.empty : CpuStatusFlags :=
  ⟨false, false, false, false, false, false, false⟩

/-- Pack the flags into a byte, with the bit positions of the bitflags
declaration: CARRY 0x01, ZERO 0x02, IRQ 0x04, DECIMAL 0x08, BREAK 0x10,
OVERFLOW 0x40, NEGATIVE 0x80. -/
def CpuStatusFlags.bits (f : CpuStatusFlags) : Nat :=
  (if f.carry then 1 else 0) + (if f.zero then 2 else 0) +
  (if f.irqDisable then 4 else 0) + (if f.decimalMode then 8 else 0) +
  (if f.breakCommand then 16 else 0) + (if f.overflow then 64 else 0) +
  (if f.negative then 128 else 0)

/-- bitflags from_bits_truncate: keep only the defined bits of a byte. -/
def CpuStatusFlags.from_bits_truncate (b : Nat) : CpuStatusFlags :=
  ⟨b &&& 1 != 0, b &&& 2 != 0, b &&& 4 != 0, b &&& 8 != 0,
   b &&& 16 != 0, b &&& 64 != 0, b &&& 128 != 0⟩

/-- Names for the individual status flags (the bitflags constants that the
source passes to flags.set / flags.intersects / flag_as_bit). -/
inductive CpuFlag where
  | carry
  | zero
  | irqDisable
  | decimalMode
  | breakCommand
  | overflow
  | negative
deriving DecidableEq

/-- flags.intersects(flag) for a single named flag. -/
def CpuStatusFlags.intersects (f : CpuStatusFlags) (flag : CpuFlag) : Bool :=
  match flag with
  | .carry => f.carry
  | .zero => f.zero
  | .irqDisable => f.irqDisable
  | .decimalMode => f.decimalMode
  | .breakCommand => f.breakCommand
  | .overflow => f.overflow
  | .negative => f.negative

/-- The operating mode: Mos is the legacy bug-compatible mode, Wdc the
modern (bug-fixed) mode.  It only affects the indirect jump. -/
inductive OperatingMode where
  | mos
  | wdc
deriving DecidableEq

/-- The Register enum: accumulator, X, Y and the stack pointer. -/
inductive Register where
  | A
  | X
  | Y
  | S
deriving DecidableEq

/-- The LogicalOperation enum used by the AND/OR/XOR instructions. -/
inductive LogicalOperation where
  | and
  | or
  | xor
deriving DecidableEq

/-- The CPU state: 16-bit program counter, 8-bit stack pointer, three 8-bit
registers, the status flags and the fixed operating mode. -/
structure Cpu where
  programCounter : Nat
  stackPointer : Nat
  registerAccumulator : Nat
  registerX : Nat
  registerY : Nat
  flags : CpuStatusFlags
  mode : OperatingMode
deriving DecidableEq

/-- Cpu::default: PC = 0xFFFC, SP = 0xFF, registers 0, flags empty,
modern (Wdc) operating mode. -/
def Cpu.default : Cpu :=
  { programCounter := 0xFFFC
    stackPointer := 0xFF
    registerAccumulator := 0
    registerX := 0
    registerY := 0
    flags := CpuStatusFlags.empty
    mode := .wdc }

/-- Result of one dispatch step: the mutated CPU, the mutated memory and
the remaining cycle budget (the u32 return value of execute_single). -/
structure Step where
  cpu : Cpu
  mem : Mem
  cycles : Nat

/-- Cpu::flag_as_bit.  The Rust source writes `bits & 0b10 >> 1`, which by
Rust operator precedence parses as `bits & (0b10 >> 1)`; the translation
keeps that grouping (so every arm masks with 1 after the shift constants
collapse), exactly as the compiled source behaves. -/
def flag_as_bit (f : CpuStatusFlags) (flag : CpuFlag) : Nat :=
  match flag with
  | .carry => f.bits &&& 0x01
  | .zero => f.bits &&& (0x02 >>> 1)
  | .irqDisable => f.bits &&& (0x04 >>> 2)
  | .decimalMode => f.bits &&& (0x08 >>> 3)
  | .breakCommand => f.bits &&& (0x10 >>> 4)
  | .overflow => f.bits &&& (0x40 >>> 6)
  | .negative => f.bits &&& (0x80 >>> 7)

/-- Cpu::read_byte: one memory read, one cycle.  The defensive bound
check in the source can never fire for a 16-bit address and is omitted. -/
def read_byte (mem : Mem) (address : Nat) (cycles : Nat) : Nat × Nat :=
  (mem.read address, wsub cycles 1)

/-- Cpu::write_byte: one memory write, one cycle. -/
def write_byte (mem : Mem) (address byte : Nat) (cycles : Nat) : Mem × Nat :=
  (mem.write address byte, wsub cycles 1)

/-- Cpu::read_word: little-endian word from address and address + 1
(u16 address increment, so it wraps at 0xFFFF).  The two bytes are u8, so
`high << 8 | low` equals `high * 256 + low`. -/
def read_word (mem : Mem) (address : Nat) (cycles : Nat) : Nat × Nat :=
  let low := read_byte mem address cycles
  let high := read_byte mem ((address + 1) % 65536) low.2
  (high.1 * 256 + low.1, high.2)

/-- Cpu::fetch_byte: read the byte at PC, increment PC (u16 wrap),
consume one cycle.  Returns (byte, new cpu, new cycles). -/
def fetch_byte (cpu : Cpu) (mem : Mem) (cycles : Nat) : Nat × Cpu × Nat :=
  (mem.read cpu.programCounter,
   { cpu with programCounter := (cpu.programCounter + 1) % 65536 },
   wsub cycles 1)

/-- Cpu::fetch_word: two fetch_byte calls, low byte first; the bytes are
u8, so `high << 8 | low` equals `high * 256 + low`. -/
def fetch_word (cpu : Cpu) (mem : Mem) (cycles : Nat) : Nat × Cpu × Nat :=
  let low := fetch_byte cpu mem cycles
  let high := fetch_byte low.2.1 mem low.2.2
  (high.1 * 256 + low.1, high.2.1, high.2.2)

/-- Cpu::stack_push: write at 0x0100 + SP, then increment SP with 8-bit
wraparound. -/
def stack_push (cpu : Cpu) (mem : Mem) (value : Nat) (cycles : Nat) :
    Cpu × Mem × Nat :=
  let w := write_byte mem (0x0100 + cpu.stackPointer) value cycles
  ({ cpu with stackPointer := (cpu.stackPointer + 1) % 256 }, w.1, w.2)

/-- Cpu::stack_pop: decrement SP with 8-bit wraparound first, then read
at 0x0100 + SP.  Returns (value, new cpu, new cycles). -/
def stack_pop (cpu : Cpu) (mem : Mem) (cycles : Nat) : Nat × Cpu × Nat :=
  let sp := (cpu.stackPointer + 255) % 256
  let r := read_byte mem (0x0100 + sp) cycles
  (r.1, { cpu with stackPointer := sp }, r.2)

/-- Cpu::get_register; the source panics on Register::S ("Unsupported
register"), which is unreachable from the dispatcher, so that arm is
given the junk value 0 here. -/
def get_register (cpu : Cpu) (register : Register) : Nat :=
  match register with
  | .A => cpu.registerAccumulator
  | .X => cpu.registerX
  | .Y => cpu.registerY
  | .S => 0

/-- Cpu::set_zero_flag: Zero := (value of the named register = 0). -/
def set_zero_flag (cpu : Cpu) (register : Register) : Cpu :=
  let v :=
    match register with
    | .A => cpu.registerAccumulator
    | .X => cpu.registerX
    | .Y => cpu.registerY
    | .S => cpu.stackPointer
  if v = 0 then { cpu with flags := { cpu.flags with zero := true } }
  else { cpu with flags := { cpu.flags with zero := false } }

/-- Cpu::set_negative_flag: Negative := (bit 7 of the named register). -/
def set_negative_flag (cpu : Cpu) (register : Register) : Cpu :=
  let v :=
    match register with
    | .A => cpu.registerAccumulator
    | .X => cpu.registerX
    | .Y => cpu.registerY
    | .S => cpu.stackPointer
  if v &&& 128 ≠ 0 then
    { cpu with flags := { cpu.flags with negative := true } }
  else { cpu with flags := { cpu.flags with negative := false } }

/-- Cpu::set_register: store the byte in the named register (including
Register::S), then run set_zero_flag and set_negative_flag on it. -/
def set_register (cpu : Cpu) (register : Register) (byte : Nat) : Cpu :=
  let cpu1 :=
    match register with
    | .A => { cpu with registerAccumulator := byte }
    | .X => { cpu with registerX := byte }
    | .Y => { cpu with registerY := byte }
    | .S => { cpu with stackPointer := byte }
  set_negative_flag (set_zero_flag cpu1 register) register

/-- Cpu::load_register: read a byte from memory into a register. -/
def load_register (cpu : Cpu) (mem : Mem) (register : Register)
    (address : Nat) (cycles : Nat) : Cpu × Nat :=
  let r := read_byte mem address cycles
  (set_register cpu register r.1, r.2)

/-- Cpu::transfer_register: copy a register (the source match includes the
stack pointer) into another via set_register, one cycle. -/
def transfer_register (cpu : Cpu) (source dest : Register) (cycles : Nat) :
    Cpu × Nat :=
  let value :=
    match source with
    | .A => cpu.registerAccumulator
    | .X => cpu.registerX
    | .Y => cpu.registerY
    | .S => cpu.stackPointer
  (set_register cpu dest value, wsub cycles 1)

/-- Cpu::compare_to_register.  Negative comes from bit 7 of the i16
difference `reg - value`; for byte inputs its 16-bit two's-complement
pattern is (reg + 65536 - value) % 65536.  The source panics on
Register::S (unreachable from the dispatcher), modelled as reg = 0. -/
def compare_to_register (cpu : Cpu) (register : Register) (value : Nat) :
    Cpu :=
  let reg :=
    match register with
    | .A => cpu.registerAccumulator
    | .X => cpu.registerX
    | .Y => cpu.registerY
    | .S => 0
  { cpu with flags :=
    { cpu.flags with
      carry := decide (reg ≥ value)
      zero := decide (reg = value)
      negative := decide ((reg + 65536 - value) % 65536 &&& 128 ≠ 0) } }

/-- Cpu::add_with_carry: widened sum of A, operand and carry-in; Carry is
sum > 0xFF, result the low byte, Overflow compares sign bits before and
after; the result is stored through set_register (updating Zero and
Negative). -/
def add_with_carry (cpu : Cpu) (value : Nat) : Cpu :=
  let a_before := cpu.registerAccumulator
  let c_before := flag_as_bit cpu.flags .carry
  let sum := a_before + value + c_before
  let a_after := sum &&& 0xFF
  let sign_bits_eq_before := (a_before ^^^ value) &&& 128 == 0
  let sign_bits_ne_after := (a_after ^^^ value) &&& 128 != 0
  let cpu1 := { cpu with flags :=
    { cpu.flags with
      carry := decide (sum > 0xFF)
      overflow := sign_bits_eq_before && sign_bits_ne_after } }
  set_register cpu1 .A a_after

/-- The bitwise complement of a byte (Rust `!value` on u8). -/
def u8not (value : Nat) : Nat := 255 - value % 256

/-- Cpu::subtract_with_carry: defined in the source as add_with_carry of
the bitwise complement of the operand. -/
def subtract_with_carry (cpu : Cpu) (value : Nat) : Cpu :=
  add_with_carry cpu (u8not value)

/-- Cpu::bit_test: reads the operand, ors it with the accumulator, and
sets Zero, Overflow (bit 6) and Negative (bit 7) from that OR result. -/
def bit_test (cpu : Cpu) (mem : Mem) (address : Nat) (cycles : Nat) :
    Cpu × Nat :=
  let r := read_byte mem address cycles
  let result := r.1 ||| cpu.registerAccumulator
  ({ cpu with flags :=
    { cpu.flags with
      zero := decide (result = 0)
      overflow := decide (result &&& (1 <<< 6) ≠ 0)
      negative := decide (result &&& (1 <<< 7) ≠ 0) } }, r.2)

/-- Cpu::logical_operation: AND/OR/XOR the accumulator with a byte and
store through set_register. -/
def logical_operation (cpu : Cpu) (byte : Nat) (op : LogicalOperation) :
    Cpu :=
  let result :=
    match op with
    | .and => cpu.registerAccumulator &&& byte
    | .or => cpu.registerAccumulator ||| byte
    | .xor => cpu.registerAccumulator ^^^ byte
  set_register cpu .A result

/-- Cpu::fetch_logical_operation: read the operand from memory first. -/
def fetch_logical_operation (cpu : Cpu) (mem : Mem) (address : Nat)
    (op : LogicalOperation) (cycles : Nat) : Cpu × Nat :=
  let r := read_byte mem address cycles
  (logical_operation cpu r.1 op, r.2)

/-- Cpu::addr_zero_page_x: zero-page operand plus X with 8-bit wrap,
one extra cycle. -/
def addr_zero_page_x (cpu : Cpu) (mem : Mem) (cycles : Nat) :
    Nat × Cpu × Nat :=
  let f := fetch_byte cpu mem cycles
  ((f.1 + f.2.1.registerX) % 256, f.2.1, wsub f.2.2 1)

/-- Cpu::addr_zero_page_y: zero-page operand plus Y with 8-bit wrap,
one extra cycle. -/
def addr_zero_page_y (cpu : Cpu) (mem : Mem) (cycles : Nat) :
    Nat × Cpu × Nat :=
  let f := fetch_byte cpu mem cycles
  ((f.1 + f.2.1.registerY) % 256, f.2.1, wsub f.2.2 1)

/-- Cpu::addr_absolute_x: 16-bit operand plus X (u16 wrap); one extra
cycle only when the high byte changes, tested by xor in the source. -/
def addr_absolute_x (cpu : Cpu) (mem : Mem) (cycles : Nat) :
    Nat × Cpu × Nat :=
  let f := fetch_word cpu mem cycles
  let addr_x := (f.1 + f.2.1.registerX) % 65536
  let c := if (f.1 ^^^ addr_x) >>> 8 ≠ 0 then wsub f.2.2 1 else f.2.2
  (addr_x, f.2.1, c)

/-- Cpu::addr_absolute_x_5: 16-bit operand plus X, always one extra
cycle (write-class form). -/
def addr_absolute_x_5 (cpu : Cpu) (mem : Mem) (cycles : Nat) :
    Nat × Cpu × Nat :=
  let f := fetch_word cpu mem cycles
  ((f.1 + f.2.1.registerX) % 65536, f.2.1, wsub f.2.2 1)

/-- Cpu::addr_absolute_y: 16-bit operand plus Y; extra cycle on page
cross only. -/
def addr_absolute_y (cpu : Cpu) (mem : Mem) (cycles : Nat) :
    Nat × Cpu × Nat :=
  let f := fetch_word cpu mem cycles
  let addr_y := (f.1 + f.2.1.registerY) % 65536
  let c := if (f.1 ^^^ addr_y) >>> 8 ≠ 0 then wsub f.2.2 1 else f.2.2
  (addr_y, f.2.1, c)

/-- Cpu::addr_absolute_y_5: 16-bit operand plus Y, always one extra
cycle. -/
def addr_absolute_y_5 (cpu : Cpu) (mem : Mem) (cycles : Nat) :
    Nat × Cpu × Nat :=
  let f := fetch_word cpu mem cycles
  ((f.1 + f.2.1.registerY) % 65536, f.2.1, wsub f.2.2 1)

/-- Cpu::addr_indirect_x: zero-page operand plus X (8-bit wrap), then a
16-bit pointer read from there; one extra cycle for the addition. -/
def addr_indirect_x (cpu : Cpu) (mem : Mem) (cycles : Nat) :
    Nat × Cpu × Nat :=
  let f := fetch_byte cpu mem cycles
  let address_x := (f.1 + f.2.1.registerX) % 256
  let r := read_word mem address_x (wsub f.2.2 1)
  (r.1, f.2.1, r.2)

/-- Cpu::addr_indirect_y: 16-bit pointer from the zero-page operand,
plus Y (u16 wrap); extra cycle on page cross only. -/
def addr_indirect_y (cpu : Cpu) (mem : Mem) (cycles : Nat) :
    Nat × Cpu × Nat :=
  let f := fetch_byte cpu mem cycles
  let r := read_word mem f.1 f.2.2
  let eff_y := (r.1 + f.2.1.registerY) % 65536
  let c := if (r.1 ^^^ eff_y) >>> 8 ≠ 0 then wsub r.2 1 else r.2
  (eff_y, f.2.1, c)

/-- Cpu::addr_indirect_y_5: like addr_indirect_y but always one extra
cycle (write-class form). -/
def addr_indirect_y_5 (cpu : Cpu) (mem : Mem) (cycles : Nat) :
    Nat × Cpu × Nat :=
  let f := fetch_byte cpu mem cycles
  let r := read_word mem f.1 f.2.2
  ((r.1 + f.2.1.registerY) % 65536, f.2.1, wsub r.2 1)

/-- Cpu::branch: fetch the relative offset; when the tested flag matches
the wanted state, spend one cycle, sign-extend the offset (i8 as i16),
add it to PC as u16, and spend one more cycle if that crosses a page. -/
def branch (cpu : Cpu) (mem : Mem) (flag : CpuFlag) (state : Bool)
    (cycles : Nat) : Cpu × Nat :=
  let f := fetch_byte cpu mem cycles
  let cpu1 := f.2.1
  if cpu1.flags.intersects flag = state then
    let c1 := wsub f.2.2 1
    let new_pc :=
      (cpu1.programCounter + (if f.1 < 128 then f.1 else f.1 + 65280)) %
        65536
    let c2 := if (new_pc ^^^ cpu1.programCounter) >>> 8 ≠ 0 then wsub c1 1
      else c1
    ({ cpu1 with programCounter := new_pc }, c2)
  else (cpu1, f.2.2)

/-- Cpu::rotate_left on a memory location: shift left (u8 truncation),
fill bit 0 from Carry, Carry from old bit 7, Zero/Negative from the
result. -/
def rotate_left (cpu : Cpu) (mem : Mem) (address : Nat) (cycles : Nat) :
    Cpu × Mem × Nat :=
  let r := read_byte mem address cycles
  let shifted := (r.1 <<< 1) % 256 ||| flag_as_bit cpu.flags .carry
  let cpu1 := { cpu with flags :=
    { cpu.flags with
      carry := decide (r.1 &&& 128 ≠ 0)
      zero := decide (shifted = 0)
      negative := decide (shifted &&& 128 ≠ 0) } }
  let w := write_byte mem address shifted r.2
  (cpu1, w.1, wsub w.2 1)

/-- Cpu::rotate_right on a memory location: shift right, fill bit 7 from
Carry, Carry from old bit 0, Zero/Negative from the result. -/
def rotate_right (cpu : Cpu) (mem : Mem) (address : Nat) (cycles : Nat) :
    Cpu × Mem × Nat :=
  let r := read_byte mem address cycles
  let shifted := r.1 >>> 1 ||| flag_as_bit cpu.flags .carry <<< 7
  let cpu1 := { cpu with flags :=
    { cpu.flags with
      carry := decide (r.1 &&& 1 ≠ 0)
      zero := decide (shifted = 0)
      negative := decide (shifted &&& 128 ≠ 0) } }
  let w := write_byte mem address shifted r.2
  (cpu1, w.1, wsub w.2 1)

/-- Cpu::increment_memory: add 1 with 8-bit wraparound, update
Zero/Negative, write back. -/
def increment_memory (cpu : Cpu) (mem : Mem) (address : Nat)
    (cycles : Nat) : Cpu × Mem × Nat :=
  let r := read_byte mem address cycles
  let inc := (r.1 + 1) % 256
  let cpu1 := { cpu with flags :=
    { cpu.flags with
      zero := decide (inc = 0)
      negative := decide (inc &&& 128 ≠ 0) } }
  let w := write_byte mem address inc (wsub r.2 1)
  (cpu1, w.1, w.2)

/-- Cpu::decrement_memory: subtract 1 with 8-bit wraparound, update
Zero/Negative, write back. -/
def decrement_memory (cpu : Cpu) (mem : Mem) (address : Nat)
    (cycles : Nat) : Cpu × Mem × Nat :=
  let r := read_byte mem address cycles
  let dec := (r.1 + 255) % 256
  let cpu1 := { cpu with flags :=
    { cpu.flags with
      zero := decide (dec = 0)
      negative := decide (dec &&& 128 ≠ 0) } }
  let w := write_byte mem address dec (wsub r.2 1)
  (cpu1, w.1, w.2)

/-- Cpu::increment_register: set_register of the old value plus 1 with
8-bit wraparound, one cycle. -/
def increment_register (cpu : Cpu) (register : Register) (cycles : Nat) :
    Cpu × Nat :=
  (set_register cpu register ((get_register cpu register + 1) % 256),
   wsub cycles 1)

/-- Cpu::decrement_register: set_register of the old value minus 1 with
8-bit wraparound, one cycle. -/
def decrement_register (cpu : Cpu) (register : Register) (cycles : Nat) :
    Cpu × Nat :=
  (set_register cpu register ((get_register cpu register + 255) % 256),
   wsub cycles 1)

/-- Cpu::arithmetic_shift_left on a memory location. -/
def arithmetic_shift_left (cpu : Cpu) (mem : Mem) (address : Nat)
    (cycles : Nat) : Cpu × Mem × Nat :=
  let r := read_byte mem address cycles
  let shifted := (r.1 <<< 1) % 256
  let w := write_byte mem address shifted r.2
  let cpu1 := { cpu with flags :=
    { cpu.flags with
      carry := decide (r.1 &&& 128 ≠ 0)
      zero := decide (shifted = 0)
      negative := decide (shifted &&& 128 ≠ 0) } }
  (cpu1, w.1, wsub w.2 1)

/-- Cpu::logical_shift_right on a memory location; Negative is always
cleared. -/
def logical_shift_right (cpu : Cpu) (mem : Mem) (address : Nat)
    (cycles : Nat) : Cpu × Mem × Nat :=
  let r := read_byte mem address cycles
  let shifted := r.1 >>> 1
  let w := write_byte mem address shifted r.2
  let cpu1 := { cpu with flags :=
    { cpu.flags with
      carry := decide (r.1 &&& 1 ≠ 0)
      zero := decide (shifted = 0)
      negative := false } }
  (cpu1, w.1, wsub w.2 1)

/-- Modelled from the spec: the flag-change and system opcode constants
(CLC, CLD, CLI, CLV, SEC, SED, SEI implied; BRK, NOP, RTI implied) are
referenced by the dispatcher in cpu.rs but their declarations are missing
from the provided ops.rs; their values here are the standard opcodes of
the instructions the spec names in its control-flow and flag sections. -/
def spec_modelled_system_opcodes : List Nat :=
  [0x18, 0xD8, 0x58, 0xB8, 0x38, 0xF8, 0x78, 0x00, 0xEA, 0x40]

/-- Opcode constant JSR_ABSOLUTE from ops.rs. -/
def JSR_ABSOLUTE : Nat := 0x20

/-- Opcode constant RTS_IMPLIED from ops.rs. -/
def RTS_IMPLIED : Nat := 0x60

/-- Opcode constant JMP_INDIRECT from ops.rs. -/
def JMP_INDIRECT : Nat := 0x6C

/-- Opcode constant LDA_IMMEDIATE from ops.rs. -/
def LDA_IMMEDIATE : Nat := 0xA9

/-- Opcode constant LDA_ABSOLUTE_X from ops.rs. -/
def LDA_ABSOLUTE_X : Nat := 0xBD

/-- Opcode constant BIT_ZERO_PAGE from ops.rs. -/
def BIT_ZERO_PAGE : Nat := 0x24

/-- Opcode constant TXS_IMPLIED from ops.rs. -/
def TXS_IMPLIED : Nat := 0x9A

set_option maxRecDepth 4096 in
/-- The body of Cpu::execute_single after the opcode fetch: the dispatch
on the instruction byte, written as the equality chain the source's match
on opcode constants denotes.  Arm order and structure follow the source;
the compared literals are the values of the ops.rs constants named in the
comments.  The final else arm is the source's catch-all `_ => {}`. -/
def exec_op (b : Nat) (cpu : Cpu) (mem : Mem) (c : Nat) : Step :=
  if b = 0xA9 then -- LDA_IMMEDIATE
    let f := fetch_byte cpu mem c
    ⟨set_register f.2.1 .A f.1, mem, f.2.2⟩
  else if b = 0xA5 then -- LDA_ZERO_PAGE
    let f := fetch_byte cpu mem c
    let l := load_register f.2.1 mem .A f.1 f.2.2
    ⟨l.1, mem, l.2⟩
  else if b = 0xB5 then -- LDA_ZERO_PAGE_X
    let a := addr_zero_page_x cpu mem c
    let l := load_register a.2.1 mem .A a.1 a.2.2
    ⟨l.1, mem, l.2⟩
  else if b = 0xAD then -- LDA_ABSOLUTE
    let w := fetch_word cpu mem c
    let l := load_register w.2.1 mem .A w.1 w.2.2
    ⟨l.1, mem, l.2⟩
  else if b = 0xBD then -- LDA_ABSOLUTE_X
    let a := addr_absolute_x cpu mem c
    let l := load_register a.2.1 mem .A a.1 a.2.2
    ⟨l.1, mem, l.2⟩
  else if b = 0xB9 then -- LDA_ABSOLUTE_Y
    let a := addr_absolute_y cpu mem c
    let l := load_register a.2.1 mem .A a.1 a.2.2
    ⟨l.1, mem, l.2⟩
  else if b = 0xA1 then -- LDA_INDIRECT_X
    let a := addr_indirect_x cpu mem c
    let l := load_register a.2.1 mem .A a.1 a.2.2
    ⟨l.1, mem, l.2⟩
  else if b = 0xB1 then -- LDA_INDIRECT_Y
    let a := addr_indirect_y cpu mem c
    let l := load_register a.2.1 mem .A a.1 a.2.2
    ⟨l.1, mem, l.2⟩
  else if b = 0xA2 then -- LDX_IMMEDIATE
    let f := fetch_byte cpu mem c
    ⟨set_register f.2.1 .X f.1, mem, f.2.2⟩
  else if b = 0xA6 then -- LDX_ZERO_PAGE
    let f := fetch_byte cpu mem c
    let l := load_register f.2.1 mem .X f.1 f.2.2
    ⟨l.1, mem, l.2⟩
  else if b = 0xB6 then -- LDX_ZERO_PAGE_Y
    let a := addr_zero_page_y cpu mem c
    let l := load_register a.2.1 mem .X a.1 a.2.2
    ⟨l.1, mem, l.2⟩
  else if b = 0xAE then -- LDX_ABSOLUTE
    let w := fetch_word cpu mem c
    let l := load_register w.2.1 mem .X w.1 w.2.2
    ⟨l.1, mem, l.2⟩
  else if b = 0xBE then -- LDX_ABSOLUTE_Y
    let a := addr_absolute_y cpu mem c
    let l := load_register a.2.1 mem .X a.1 a.2.2
    ⟨l.1, mem, l.2⟩
  else if b = 0xA0 then -- LDY_IMMEDIATE
    let f := fetch_byte cpu mem c
    ⟨set_register f.2.1 .Y f.1, mem, f.2.2⟩
  else if b = 0xA4 then -- LDY_ZERO_PAGE
    let f := fetch_byte cpu mem c
    let l := load_register f.2.1 mem .Y f.1 f.2.2
    ⟨l.1, mem, l.2⟩
  else if b = 0xB4 then -- LDY_ZERO_PAGE_X
    let a := addr_zero_page_x cpu mem c
    let l := load_register a.2.1 mem .Y a.1 a.2.2
    ⟨l.1, mem, l.2⟩
  else if b = 0xAC then -- LDY_ABSOLUTE
    let w := fetch_word cpu mem c
    let l := load_register w.2.1 mem .Y w.1 w.2.2
    ⟨l.1, mem, l.2⟩
  else if b = 0xBC then -- LDY_ABSOLUTE_X
    let a := addr_absolute_x cpu mem c
    let l := load_register a.2.1 mem .Y a.1 a.2.2
    ⟨l.1, mem, l.2⟩
  else if b = 0x85 then -- STA_ZERO_PAGE
    let f := fetch_byte cpu mem c
    let w := write_byte mem f.1 f.2.1.registerAccumulator f.2.2
    ⟨f.2.1, w.1, w.2⟩
  else if b = 0x95 then -- STA_ZERO_PAGE_X
    let a := addr_zero_page_x cpu mem c
    let w := write_byte mem a.1 a.2.1.registerAccumulator a.2.2
    ⟨a.2.1, w.1, w.2⟩
  else if b = 0x8D then -- STA_ABSOLUTE
    let f := fetch_word cpu mem c
    let w := write_byte mem f.1 f.2.1.registerAccumulator f.2.2
    ⟨f.2.1, w.1, w.2⟩
  else if b = 0x9D then -- STA_ABSOLUTE_X
    let a := addr_absolute_x_5 cpu mem c
    let w := write_byte mem a.1 a.2.1.registerAccumulator a.2.2
    ⟨a.2.1, w.1, w.2⟩
  else if b = 0x99 then -- STA_ABSOLUTE_Y
    let a := addr_absolute_y_5 cpu mem c
    let w := write_byte mem a.1 a.2.1.registerAccumulator a.2.2
    ⟨a.2.1, w.1, w.2⟩
  else if b = 0x81 then -- STA_INDIRECT_X
    let a := addr_indirect_x cpu mem c
    let w := write_byte mem a.1 a.2.1.registerAccumulator a.2.2
    ⟨a.2.1, w.1, w.2⟩
  else if b = 0x91 then -- STA_INDIRECT_Y
    let a := addr_indirect_y_5 cpu mem c
    let w := write_byte mem a.1 a.2.1.registerAccumulator a.2.2
    ⟨a.2.1, w.1, w.2⟩
  else if b = 0x86 then -- STX_ZERO_PAGE
    let f := fetch_byte cpu mem c
    let w := write_byte mem f.1 f.2.1.registerX f.2.2
    ⟨f.2.1, w.1, w.2⟩
  else if b = 0x96 then -- STX_ZERO_PAGE_Y
    let a := addr_zero_page_y cpu mem c
    let w := write_byte mem a.1 a.2.1.registerX a.2.2
    ⟨a.2.1, w.1, w.2⟩
  else if b = 0x8E then -- STX_ABSOLUTE
    let f := fetch_word cpu mem c
    let w := write_byte mem f.1 f.2.1.registerX f.2.2
    ⟨f.2.1, w.1, w.2⟩
  else if b = 0x84 then -- STY_ZERO_PAGE
    let f := fetch_byte cpu mem c
    let w := write_byte mem f.1 f.2.1.registerY f.2.2
    ⟨f.2.1, w.1, w.2⟩
  else if b = 0x94 then -- STY_ZERO_PAGE_X
    let a := addr_zero_page_x cpu mem c
    let w := write_byte mem a.1 a.2.1.registerY a.2.2
    ⟨a.2.1, w.1, w.2⟩
  else if b = 0x8C then -- STY_ABSOLUTE
    let f := fetch_word cpu mem c
    let w := write_byte mem f.1 f.2.1.registerY f.2.2
    ⟨f.2.1, w.1, w.2⟩
  else if b = 0xAA then -- TAX_IMPLIED
    let t := transfer_register cpu .A .X c
    ⟨t.1, mem, t.2⟩
  else if b = 0xA8 then -- TAY_IMPLIED
    let t := transfer_register cpu .A .Y c
    ⟨t.1, mem, t.2⟩
  else if b = 0x8A then -- TXA_IMPLIED
    let t := transfer_register cpu .X .A c
    ⟨t.1, mem, t.2⟩
  else if b = 0x98 then -- TYA_IMPLIED
    let t := transfer_register cpu .Y .A c
    ⟨t.1, mem, t.2⟩
  else if b = 0xBA then -- TSX_IMPLIED
    let t := transfer_register cpu .S .X c
    ⟨t.1, mem, t.2⟩
  else if b = 0x9A then -- TXS_IMPLIED
    let t := transfer_register cpu .X .S c
    ⟨t.1, mem, t.2⟩
  else if b = 0x48 then -- PHA_IMPLIED
    let p := stack_push cpu mem cpu.registerAccumulator c
    ⟨p.1, p.2.1, wsub p.2.2 1⟩
  else if b = 0x08 then -- PHP_IMPLIED
    let p := stack_push cpu mem cpu.flags.bits c
    ⟨p.1, p.2.1, wsub p.2.2 1⟩
  else if b = 0x68 then -- PLA_IMPLIED
    let p := stack_pop cpu mem c
    ⟨set_register p.2.1 .A p.1, mem, wsub p.2.2 2⟩
  else if b = 0x28 then -- PLP_IMPLIED
    let p := stack_pop cpu mem c
    ⟨{ p.2.1 with flags := CpuStatusFlags.from_bits_truncate p.1 }, mem,
      wsub p.2.2 2⟩
  else if b = 0x29 then -- AND_IMMEDIATE
    let f := fetch_byte cpu mem c
    ⟨logical_operation f.2.1 f.1 .and, mem, f.2.2⟩
  else if b = 0x25 then -- AND_ZERO_PAGE
    let f := fetch_byte cpu mem c
    let l := fetch_logical_operation f.2.1 mem f.1 .and f.2.2
    ⟨l.1, mem, l.2⟩
  else if b = 0x35 then -- AND_ZERO_PAGE_X
    let a := addr_zero_page_x cpu mem c
    let l := fetch_logical_operation a.2.1 mem a.1 .and a.2.2
    ⟨l.1, mem, l.2⟩
  else if b = 0x2D then -- AND_ABSOLUTE
    let w := fetch_word cpu mem c
    let l := fetch_logical_operation w.2.1 mem w.1 .and w.2.2
    ⟨l.1, mem, l.2⟩
  else if b = 0x3D then -- AND_ABSOLUTE_X
    let a := addr_absolute_x cpu mem c
    let l := fetch_logical_operation a.2.1 mem a.1 .and a.2.2
    ⟨l.1, mem, l.2⟩
  else if b = 0x39 then -- AND_ABSOLUTE_Y
    let a := addr_absolute_y cpu mem c
    let l := fetch_logical_operation a.2.1 mem a.1 .and a.2.2
    ⟨l.1, mem, l.2⟩
  else if b = 0x21 then -- AND_INDIRECT_X
    let a := addr_indirect_x cpu mem c
    let l := fetch_logical_operation a.2.1 mem a.1 .and a.2.2
    ⟨l.1, mem, l.2⟩
  else if b = 0x31 then -- AND_INDIRECT_Y
    let a := addr_indirect_y cpu mem c
    let l := fetch_logical_operation a.2.1 mem a.1 .and a.2.2
    ⟨l.1, mem, l.2⟩
  else if b = 0x49 then -- EOR_IMMEDIATE
    let f := fetch_byte cpu mem c
    ⟨logical_operation f.2.1 f.1 .xor, mem, f.2.2⟩
  else if b = 0x45 then -- EOR_ZERO_PAGE
    let f := fetch_byte cpu mem c
    let l := fetch_logical_operation f.2.1 mem f.1 .xor f.2.2
    ⟨l.1, mem, l.2⟩
  else if b = 0x55 then -- EOR_ZERO_PAGE_X
    let a := addr_zero_page_x cpu mem c
    let l := fetch_logical_operation a.2.1 mem a.1 .xor a.2.2
    ⟨l.1, mem, l.2⟩
  else if b = 0x4D then -- EOR_ABSOLUTE
    let w := fetch_word cpu mem c
    let l := fetch_logical_operation w.2.1 mem w.1 .xor w.2.2
    ⟨l.1, mem, l.2⟩
  else if b = 0x5D then -- EOR_ABSOLUTE_X
    let a := addr_absolute_x cpu mem c
    let l := fetch_logical_operation a.2.1 mem a.1 .xor a.2.2
    ⟨l.1, mem, l.2⟩
  else if b = 0x59 then -- EOR_ABSOLUTE_Y
    let a := addr_absolute_y cpu mem c
    let l := fetch_logical_operation a.2.1 mem a.1 .xor a.2.2
    ⟨l.1, mem, l.2⟩
  else if b = 0x41 then -- EOR_INDIRECT_X
    let a := addr_indirect_x cpu mem c
    let l := fetch_logical_operation a.2.1 mem a.1 .xor a.2.2
    ⟨l.1, mem, l.2⟩
  else if b = 0x51 then -- EOR_INDIRECT_Y
    let a := addr_indirect_y cpu mem c
    let l := fetch_logical_operation a.2.1 mem a.1 .xor a.2.2
    ⟨l.1, mem, l.2⟩
  else if b = 0x09 then -- ORA_IMMEDIATE
    let f := fetch_byte cpu mem c
    ⟨logical_operation f.2.1 f.1 .or, mem, f.2.2⟩
  else if b = 0x05 then -- ORA_ZERO_PAGE
    let f := fetch_byte cpu mem c
    let l := fetch_logical_operation f.2.1 mem f.1 .or f.2.2
    ⟨l.1, mem, l.2⟩
  else if b = 0x15 then -- ORA_ZERO_PAGE_X
    let a := addr_zero_page_x cpu mem c
    let l := fetch_logical_operation a.2.1 mem a.1 .or a.2.2
    ⟨l.1, mem, l.2⟩
  else if b = 0x0D then -- ORA_ABSOLUTE
    let w := fetch_word cpu mem c
    let l := fetch_logical_operation w.2.1 mem w.1 .or w.2.2
    ⟨l.1, mem, l.2⟩
  else if b = 0x1D then -- ORA_ABSOLUTE_X
    let a := addr_absolute_x cpu mem c
    let l := fetch_logical_operation a.2.1 mem a.1 .or a.2.2
    ⟨l.1, mem, l.2⟩
  else if b = 0x19 then -- ORA_ABSOLUTE_Y
    let a := addr_absolute_y cpu mem c
    let l := fetch_logical_operation a.2.1 mem a.1 .or a.2.2
    ⟨l.1, mem, l.2⟩
  else if b = 0x01 then -- ORA_INDIRECT_X
    let a := addr_indirect_x cpu mem c
    let l := fetch_logical_operation a.2.1 mem a.1 .or a.2.2
    ⟨l.1, mem, l.2⟩
  else if b = 0x11 then -- ORA_INDIRECT_Y
    let a := addr_indirect_y cpu mem c
    let l := fetch_logical_operation a.2.1 mem a.1 .or a.2.2
    ⟨l.1, mem, l.2⟩
  else if b = 0x24 then -- BIT_ZERO_PAGE
    let f := fetch_byte cpu mem c
    let t := bit_test f.2.1 mem f.1 f.2.2
    ⟨t.1, mem, t.2⟩
  else if b = 0x2C then -- BIT_ABSOLUTE
    let w := fetch_word cpu mem c
    let t := bit_test w.2.1 mem w.1 w.2.2
    ⟨t.1, mem, t.2⟩
  else if b = 0x69 then -- ADC_IMMEDIATE
    let f := fetch_byte cpu mem c
    ⟨add_with_carry f.2.1 f.1, mem, f.2.2⟩
  else if b = 0x65 then -- ADC_ZERO_PAGE
    let f := fetch_byte cpu mem c
    let r := read_byte mem f.1 f.2.2
    ⟨add_with_carry f.2.1 r.1, mem, r.2⟩
  else if b = 0x75 then -- ADC_ZERO_PAGE_X
    let a := addr_zero_page_x cpu mem c
    let r := read_byte mem a.1 a.2.2
    ⟨add_with_carry a.2.1 r.1, mem, r.2⟩
  else if b = 0x6D then -- ADC_ABSOLUTE
    let w := fetch_word cpu mem c
    let r := read_byte mem w.1 w.2.2
    ⟨add_with_carry w.2.1 r.1, mem, r.2⟩
  else if b = 0x7D then -- ADC_ABSOLUTE_X
    let a := addr_absolute_x cpu mem c
    let r := read_byte mem a.1 a.2.2
    ⟨add_with_carry a.2.1 r.1, mem, r.2⟩
  else if b = 0x79 then -- ADC_ABSOLUTE_Y
    let a := addr_absolute_y cpu mem c
    let r := read_byte mem a.1 a.2.2
    ⟨add_with_carry a.2.1 r.1, mem, r.2⟩
  else if b = 0x61 then -- ADC_INDIRECT_X
    let a := addr_indirect_x cpu mem c
    let r := read_byte mem a.1 a.2.2
    ⟨add_with_carry a.2.1 r.1, mem, r.2⟩
  else if b = 0x71 then -- ADC_INDIRECT_Y
    let a := addr_indirect_y cpu mem c
    let r := read_byte mem a.1 a.2.2
    ⟨add_with_carry a.2.1 r.1, mem, r.2⟩
  else if b = 0xE9 then -- SBC_IMMEDIATE
    let f := fetch_byte cpu mem c
    ⟨subtract_with_carry f.2.1 f.1, mem, f.2.2⟩
  else if b = 0xE5 then -- SBC_ZERO_PAGE
    let f := fetch_byte cpu mem c
    let r := read_byte mem f.1 f.2.2
    ⟨subtract_with_carry f.2.1 r.1, mem, r.2⟩
  else if b = 0xF5 then -- SBC_ZERO_PAGE_X
    let a := addr_zero_page_x cpu mem c
    let r := read_byte mem a.1 a.2.2
    ⟨subtract_with_carry a.2.1 r.1, mem, r.2⟩
  else if b = 0xED then -- SBC_ABSOLUTE
    let w := fetch_word cpu mem c
    let r := read_byte mem w.1 w.2.2
    ⟨subtract_with_carry w.2.1 r.1, mem, r.2⟩
  else if b = 0xFD then -- SBC_ABSOLUTE_X
    let a := addr_absolute_x cpu mem c
    let r := read_byte mem a.1 a.2.2
    ⟨subtract_with_carry a.2.1 r.1, mem, r.2⟩
  else if b = 0xF9 then -- SBC_ABSOLUTE_Y
    let a := addr_absolute_y cpu mem c
    let r := read_byte mem a.1 a.2.2
    ⟨subtract_with_carry a.2.1 r.1, mem, r.2⟩
  else if b = 0xE1 then -- SBC_INDIRECT_X
    let a := addr_indirect_x cpu mem c
    let r := read_byte mem a.1 a.2.2
    ⟨subtract_with_carry a.2.1 r.1, mem, r.2⟩
  else if b = 0xF1 then -- SBC_INDIRECT_Y
    let a := addr_indirect_y cpu mem c
    let r := read_byte mem a.1 a.2.2
    ⟨subtract_with_carry a.2.1 r.1, mem, r.2⟩
  else if b = 0xC9 then -- CMP_IMMEDIATE
    let f := fetch_byte cpu mem c
    ⟨compare_to_register f.2.1 .A f.1, mem, f.2.2⟩
  else if b = 0xC5 then -- CMP_ZERO_PAGE
    let f := fetch_byte cpu mem c
    let r := read_byte mem f.1 f.2.2
    ⟨compare_to_register f.2.1 .A r.1, mem, r.2⟩
  else if b = 0xD5 then -- CMP_ZERO_PAGE_X
    let a := addr_zero_page_x cpu mem c
    let r := read_byte mem a.1 a.2.2
    ⟨compare_to_register a.2.1 .A r.1, mem, r.2⟩
  else if b = 0xCD then -- CMP_ABSOLUTE
    let w := fetch_word cpu mem c
    let r := read_byte mem w.1 w.2.2
    ⟨compare_to_register w.2.1 .A r.1, mem, r.2⟩
  else if b = 0xDD then -- CMP_ABSOLUTE_X
    let a := addr_absolute_x cpu mem c
    let r := read_byte mem a.1 a.2.2
    ⟨compare_to_register a.2.1 .A r.1, mem, r.2⟩
  else if b = 0xD9 then -- CMP_ABSOLUTE_Y
    let a := addr_absolute_y cpu mem c
    let r := read_byte mem a.1 a.2.2
    ⟨compare_to_register a.2.1 .A r.1, mem, r.2⟩
  else if b = 0xC1 then -- CMP_INDIRECT_X
    let a := addr_indirect_x cpu mem c
    let r := read_byte mem a.1 a.2.2
    ⟨compare_to_register a.2.1 .A r.1, mem, r.2⟩
  else if b = 0xD1 then -- CMP_INDIRECT_Y
    let a := addr_indirect_y cpu mem c
    let r := read_byte mem a.1 a.2.2
    ⟨compare_to_register a.2.1 .A r.1, mem, r.2⟩
  else if b = 0xE0 then -- CPX_IMMEDIATE
    let f := fetch_byte cpu mem c
    ⟨compare_to_register f.2.1 .X f.1, mem, f.2.2⟩
  else if b = 0xE4 then -- CPX_ZERO_PAGE
    let f := fetch_byte cpu mem c
    let r := read_byte mem f.1 f.2.2
    ⟨compare_to_register f.2.1 .X r.1, mem, r.2⟩
  else if b = 0xEC then -- CPX_ABSOLUTE
    let w := fetch_word cpu mem c
    let r := read_byte mem w.1 w.2.2
    ⟨compare_to_register w.2.1 .X r.1, mem, r.2⟩
  else if b = 0xC0 then -- CPY_IMMEDIATE
    let f := fetch_byte cpu mem c
    ⟨compare_to_register f.2.1 .Y f.1, mem, f.2.2⟩
  else if b = 0xC4 then -- CPY_ZERO_PAGE
    let f := fetch_byte cpu mem c
    let r := read_byte mem f.1 f.2.2
    ⟨compare_to_register f.2.1 .Y r.1, mem, r.2⟩
  else if b = 0xCC then -- CPY_ABSOLUTE
    let w := fetch_word cpu mem c
    let r := read_byte mem w.1 w.2.2
    ⟨compare_to_register w.2.1 .Y r.1, mem, r.2⟩
  else if b = 0xE6 then -- INC_ZERO_PAGE
    let f := fetch_byte cpu mem c
    let i := increment_memory f.2.1 mem f.1 f.2.2
    ⟨i.1, i.2.1, i.2.2⟩
  else if b = 0xF6 then -- INC_ZERO_PAGE_X
    let a := addr_zero_page_x cpu mem c
    let i := increment_memory a.2.1 mem a.1 a.2.2
    ⟨i.1, i.2.1, i.2.2⟩
  else if b = 0xEE then -- INC_ABSOLUTE
    let w := fetch_word cpu mem c
    let i := increment_memory w.2.1 mem w.1 w.2.2
    ⟨i.1, i.2.1, i.2.2⟩
  else if b = 0xFE then -- INC_ABSOLUTE_X
    let a := addr_absolute_x_5 cpu mem c
    let i := increment_memory a.2.1 mem a.1 a.2.2
    ⟨i.1, i.2.1, i.2.2⟩
  else if b = 0xE8 then -- INX_IMPLIED
    let i := increment_register cpu .X c
    ⟨i.1, mem, i.2⟩
  else if b = 0xC8 then -- INY_IMPLIED
    let i := increment_register cpu .Y c
    ⟨i.1, mem, i.2⟩
  else if b = 0xC6 then -- DEC_ZERO_PAGE
    let f := fetch_byte cpu mem c
    let d := decrement_memory f.2.1 mem f.1 f.2.2
    ⟨d.1, d.2.1, d.2.2⟩
  else if b = 0xD6 then -- DEC_ZERO_PAGE_X
    let a := addr_zero_page_x cpu mem c
    let d := decrement_memory a.2.1 mem a.1 a.2.2
    ⟨d.1, d.2.1, d.2.2⟩
  else if b = 0xCE then -- DEC_ABSOLUTE
    let w := fetch_word cpu mem c
    let d := decrement_memory w.2.1 mem w.1 w.2.2
    ⟨d.1, d.2.1, d.2.2⟩
  else if b = 0xDE then -- DEC_ABSOLUTE_X
    let a := addr_absolute_x_5 cpu mem c
    let d := decrement_memory a.2.1 mem a.1 a.2.2
    ⟨d.1, d.2.1, d.2.2⟩
  else if b = 0xCA then -- DEX_IMPLIED
    let d := decrement_register cpu .X c
    ⟨d.1, mem, d.2⟩
  else if b = 0x88 then -- DEY_IMPLIED
    let d := decrement_register cpu .Y c
    ⟨d.1, mem, d.2⟩
  else if b = 0x0A then -- ASL_ACCUMULATOR
    let carry := decide (cpu.registerAccumulator &&& 128 ≠ 0)
    let acc := (cpu.registerAccumulator <<< 1) % 256
    ⟨{ cpu with
        registerAccumulator := acc
        flags := { cpu.flags with
          carry := carry
          zero := decide (acc = 0)
          negative := decide (acc &&& 128 ≠ 0) } }, mem, wsub c 1⟩
  else if b = 0x06 then -- ASL_ZERO_PAGE
    let f := fetch_byte cpu mem c
    let s := arithmetic_shift_left f.2.1 mem f.1 f.2.2
    ⟨s.1, s.2.1, s.2.2⟩
  else if b = 0x16 then -- ASL_ZERO_PAGE_X
    let a := addr_zero_page_x cpu mem c
    let s := arithmetic_shift_left a.2.1 mem a.1 a.2.2
    ⟨s.1, s.2.1, s.2.2⟩
  else if b = 0x0E then -- ASL_ABSOLUTE
    let w := fetch_word cpu mem c
    let s := arithmetic_shift_left w.2.1 mem w.1 w.2.2
    ⟨s.1, s.2.1, s.2.2⟩
  else if b = 0x1E then -- ASL_ABSOLUTE_X
    let a := addr_absolute_x_5 cpu mem c
    let s := arithmetic_shift_left a.2.1 mem a.1 a.2.2
    ⟨s.1, s.2.1, s.2.2⟩
  else if b = 0x4A then -- LSR_ACCUMULATOR
    let carry := decide (cpu.registerAccumulator &&& 1 ≠ 0)
    let acc := cpu.registerAccumulator >>> 1
    ⟨{ cpu with
        registerAccumulator := acc
        flags := { cpu.flags with
          carry := carry
          zero := decide (acc = 0)
          negative := false } }, mem, wsub c 1⟩
  else if b = 0x46 then -- LSR_ZERO_PAGE
    let f := fetch_byte cpu mem c
    let s := logical_shift_right f.2.1 mem f.1 f.2.2
    ⟨s.1, s.2.1, s.2.2⟩
  else if b = 0x56 then -- LSR_ZERO_PAGE_X
    let a := addr_zero_page_x cpu mem c
    let s := logical_shift_right a.2.1 mem a.1 a.2.2
    ⟨s.1, s.2.1, s.2.2⟩
  else if b = 0x4E then -- LSR_ABSOLUTE
    let w := fetch_word cpu mem c
    let s := logical_shift_right w.2.1 mem w.1 w.2.2
    ⟨s.1, s.2.1, s.2.2⟩
  else if b = 0x5E then -- LSR_ABSOLUTE_X
    let a := addr_absolute_x_5 cpu mem c
    let s := logical_shift_right a.2.1 mem a.1 a.2.2
    ⟨s.1, s.2.1, s.2.2⟩
  else if b = 0x2A then -- ROL_ACCUMULATOR
    let set_carry := decide (cpu.registerAccumulator &&& 128 ≠ 0)
    let acc :=
      (cpu.registerAccumulator <<< 1) % 256 ||| flag_as_bit cpu.flags .carry
    ⟨{ cpu with
        registerAccumulator := acc
        flags := { cpu.flags with
          carry := set_carry
          zero := decide (acc = 0)
          negative := decide (acc &&& 128 ≠ 0) } }, mem, wsub c 1⟩
  else if b = 0x26 then -- ROL_ZERO_PAGE
    let f := fetch_byte cpu mem c
    let s := rotate_left f.2.1 mem f.1 f.2.2
    ⟨s.1, s.2.1, s.2.2⟩
  else if b = 0x36 then -- ROL_ZERO_PAGE_X
    let a := addr_zero_page_x cpu mem c
    let s := rotate_left a.2.1 mem a.1 a.2.2
    ⟨s.1, s.2.1, s.2.2⟩
  else if b = 0x2E then -- ROL_ABSOLUTE
    let w := fetch_word cpu mem c
    let s := rotate_left w.2.1 mem w.1 w.2.2
    ⟨s.1, s.2.1, s.2.2⟩
  else if b = 0x3E then -- ROL_ABSOLUTE_X
    let a := addr_absolute_x_5 cpu mem c
    let s := rotate_left a.2.1 mem a.1 a.2.2
    ⟨s.1, s.2.1, s.2.2⟩
  else if b = 0x6A then -- ROR_ACCUMULATOR
    let set_carry := decide (cpu.registerAccumulator &&& 1 ≠ 0)
    let acc :=
      cpu.registerAccumulator >>> 1 ||| flag_as_bit cpu.flags .carry <<< 7
    ⟨{ cpu with
        registerAccumulator := acc
        flags := { cpu.flags with
          carry := set_carry
          zero := decide (acc = 0)
          negative := decide (acc &&& 128 ≠ 0) } }, mem, wsub c 1⟩
  else if b = 0x66 then -- ROR_ZERO_PAGE
    let f := fetch_byte cpu mem c
    let s := rotate_right f.2.1 mem f.1 f.2.2
    ⟨s.1, s.2.1, s.2.2⟩
  else if b = 0x76 then -- ROR_ZERO_PAGE_X
    let a := addr_zero_page_x cpu mem c
    let s := rotate_right a.2.1 mem a.1 a.2.2
    ⟨s.1, s.2.1, s.2.2⟩
  else if b = 0x6E then -- ROR_ABSOLUTE
    let w := fetch_word cpu mem c
    let s := rotate_right w.2.1 mem w.1 w.2.2
    ⟨s.1, s.2.1, s.2.2⟩
  else if b = 0x7E then -- ROR_ABSOLUTE_X
    let a := addr_absolute_x_5 cpu mem c
    let s := rotate_right a.2.1 mem a.1 a.2.2
    ⟨s.1, s.2.1, s.2.2⟩
  else if b = 0x4C then -- JMP_ABSOLUTE
    let w := fetch_word cpu mem c
    ⟨{ w.2.1 with programCounter := w.1 }, mem, w.2.2⟩
  else if b = 0x6C then -- JMP_INDIRECT
    let w := fetch_word cpu mem c
    match w.2.1.mode with
    | .mos =>
      let low := read_byte mem w.1 w.2.2
      let high := read_byte mem (w.1 &&& 0xFF00) low.2
      ⟨{ w.2.1 with programCounter := high.1 * 256 + low.1 }, mem, high.2⟩
    | .wdc =>
      let r := read_word mem w.1 w.2.2
      ⟨{ w.2.1 with programCounter := r.1 }, mem, r.2⟩
  else if b = 0x20 then -- JSR_ABSOLUTE
    let w := fetch_word cpu mem c
    let src := w.2.1.programCounter
    let w1 := write_byte mem (0x0100 + w.2.1.stackPointer) (src % 256) w.2.2
    let cpu1 :=
      { w.2.1 with stackPointer := (w.2.1.stackPointer + 1) % 256 }
    let w2 := write_byte w1.1 (0x0100 + cpu1.stackPointer) (src / 256) w1.2
    ⟨{ cpu1 with
        stackPointer := (cpu1.stackPointer + 1) % 256
        programCounter := w.1 }, w2.1, wsub w2.2 1⟩
  else if b = 0x60 then -- RTS_IMPLIED
    let p1 := stack_pop cpu mem c
    let p2 := stack_pop p1.2.1 mem p1.2.2
    ⟨{ p2.2.1 with programCounter := p1.1 * 256 + p2.1 }, mem,
      wsub p2.2.2 3⟩
  else if b = 0xB0 then -- BCS_RELATIVE
    let r := branch cpu mem .carry true c
    ⟨r.1, mem, r.2⟩
  else if b = 0x90 then -- BCC_RELATIVE
    let r := branch cpu mem .carry false c
    ⟨r.1, mem, r.2⟩
  else if b = 0xF0 then -- BEQ_RELATIVE
    let r := branch cpu mem .zero true c
    ⟨r.1, mem, r.2⟩
  else if b = 0xD0 then -- BNE_RELATIVE
    let r := branch cpu mem .zero false c
    ⟨r.1, mem, r.2⟩
  else if b = 0x30 then -- BMI_RELATIVE
    let r := branch cpu mem .negative true c
    ⟨r.1, mem, r.2⟩
  else if b = 0x10 then -- BPL_RELATIVE
    let r := branch cpu mem .negative false c
    ⟨r.1, mem, r.2⟩
  else if b = 0x70 then -- BVS_RELATIVE
    let r := branch cpu mem .overflow true c
    ⟨r.1, mem, r.2⟩
  else if b = 0x50 then -- BVC_RELATIVE
    let r := branch cpu mem .overflow false c
    ⟨r.1, mem, r.2⟩
  else if b = 0x18 then -- CLC_IMPLIED
    ⟨{ cpu with flags := { cpu.flags with carry := false } }, mem, wsub c 1⟩
  else if b = 0xD8 then -- CLD_IMPLIED
    ⟨{ cpu with flags := { cpu.flags with decimalMode := false } }, mem,
      wsub c 1⟩
  else if b = 0x58 then -- CLI_IMPLIED
    ⟨{ cpu with flags := { cpu.flags with irqDisable := false } }, mem,
      wsub c 1⟩
  else if b = 0xB8 then -- CLV_IMPLIED
    ⟨{ cpu with flags := { cpu.flags with overflow := false } }, mem,
      wsub c 1⟩
  else if b = 0x38 then -- SEC_IMPLIED
    ⟨{ cpu with flags := { cpu.flags with carry := true } }, mem, wsub c 1⟩
  else if b = 0xF8 then -- SED_IMPLIED
    ⟨{ cpu with flags := { cpu.flags with decimalMode := true } }, mem,
      wsub c 1⟩
  else if b = 0x78 then -- SEI_IMPLIED
    ⟨{ cpu with flags := { cpu.flags with irqDisable := true } }, mem,
      wsub c 1⟩
  else if b = 0x00 then -- BRK_IMPLIED
    let low_pc := cpu.programCounter % 256
    let high_pc := cpu.programCounter / 256
    let p1 := stack_push cpu mem low_pc c
    let p2 := stack_push p1.1 p1.2.1 high_pc p1.2.2
    let p3 := stack_push p2.1 p2.2.1 p2.1.flags.bits p2.2.2
    let r := read_word p3.2.1 0xFFFE p3.2.2
    ⟨{ p3.1 with
        programCounter := r.1
        flags := { p3.1.flags with breakCommand := true } }, p3.2.1,
      wsub r.2 1⟩
  else if b = 0xEA then -- NOP_IMPLIED
    ⟨cpu, mem, wsub c 1⟩
  else if b = 0x40 then -- RTI_IMPLIED
    let p1 := stack_pop cpu mem c
    let cpu1 :=
      { p1.2.1 with flags := CpuStatusFlags.from_bits_truncate p1.1 }
    let p2 := stack_pop cpu1 mem p1.2.2
    let p3 := stack_pop p2.2.1 mem p2.2.2
    ⟨{ p3.2.1 with
        programCounter := p2.1 * 256 + p3.1
        flags := { p3.2.1.flags with breakCommand := false } }, mem,
      wsub p3.2.2 2⟩
  else ⟨cpu, mem, c⟩

/-- Cpu::execute_single: fetch one opcode byte (one cycle), dispatch it,
return the remaining cycle budget along with the mutated CPU and memory. -/
def execute_single (cpu : Cpu) (mem : Mem) (cycles : Nat) : Step :=
  let f := fetch_byte cpu mem cycles
  exec_op f.1 f.2.1 mem f.2.2

/-- Every opcode byte handled by an arm of the dispatcher, in arm order;
every byte outside this list falls through to the catch-all arm. -/
def assigned_opcodes : List Nat :=
  [0xA9, 0xA5, 0xB5, 0xAD, 0xBD, 0xB9, 0xA1, 0xB1,
   0xA2, 0xA6, 0xB6, 0xAE, 0xBE,
   0xA0, 0xA4, 0xB4, 0xAC, 0xBC,
   0x85, 0x95, 0x8D, 0x9D, 0x99, 0x81, 0x91,
   0x86, 0x96, 0x8E, 0x84, 0x94, 0x8C,
   0xAA, 0xA8, 0x8A, 0x98, 0xBA, 0x9A, 0x48, 0x08, 0x68, 0x28,
   0x29, 0x25, 0x35, 0x2D, 0x3D, 0x39, 0x21, 0x31,
   0x49, 0x45, 0x55, 0x4D, 0x5D, 0x59, 0x41, 0x51,
   0x09, 0x05, 0x15, 0x0D, 0x1D, 0x19, 0x01, 0x11,
   0x24, 0x2C,
   0x69, 0x65, 0x75, 0x6D, 0x7D, 0x79, 0x61, 0x71,
   0xE9, 0xE5, 0xF5, 0xED, 0xFD, 0xF9, 0xE1, 0xF1,
   0xC9, 0xC5, 0xD5, 0xCD, 0xDD, 0xD9, 0xC1, 0xD1,
   0xE0, 0xE4, 0xEC, 0xC0, 0xC4, 0xCC,
   0xE6, 0xF6, 0xEE, 0xFE, 0xE8, 0xC8,
   0xC6, 0xD6, 0xCE, 0xDE, 0xCA, 0x88,
   0x0A, 0x06, 0x16, 0x0E, 0x1E,
   0x4A, 0x46, 0x56, 0x4E, 0x5E,
   0x2A, 0x26, 0x36, 0x2E, 0x3E,
   0x6A, 0x66, 0x76, 0x6E, 0x7E,
   0x4C, 0x6C, 0x20, 0x60,
   0xB0, 0x90, 0xF0, 0xD0, 0x30, 0x10, 0x70, 0x50,
   0x18, 0xD8, 0x58, 0xB8, 0x38, 0xF8, 0x78,
   0x00, 0xEA, 0x40]

/-- Legacy-mode CPU at 0x8000 for the indirect-jump experiment. -/
def c1cpu : Cpu := { Cpu.default with programCounter := 0x8000, mode := .mos }

/-- JMP (0x4020) at 0x8000; pointer low byte 0x60 at 0x4020, the correct
high byte 0x70 at 0x4021, and the byte 0x12 at the page start 0x4000. -/
def c1mem : Mem := fun a =>
  if a = 0x8000 then 0x6C else if a = 0x8001 then 0x20
  else if a = 0x8002 then 0x40 else if a = 0x4020 then 0x60
  else if a = 0x4021 then 0x70 else if a = 0x4000 then 0x12 else 0

/-- CPU with accumulator 0x40 at 0x8000 for the bit-test experiment. -/
def c2cpu : Cpu :=
  { Cpu.default with programCounter := 0x8000, registerAccumulator := 0x40 }

/-- BIT zero page 0x10 at 0x8000; the operand byte at 0x10 is 0x00. -/
def c2mem : Mem := fun a =>
  if a = 0x8000 then 0x24 else if a = 0x8001 then 0x10 else 0

/-- CPU at 0x8000 with stack pointer 0x40 for the subroutine claims. -/
def c4cpu : Cpu :=
  { Cpu.default with programCounter := 0x8000, stackPointer := 0x40 }

/-- JSR 0x2040 at 0x8000, RTS at 0x2040. -/
def c4mem : Mem := fun a =>
  if a = 0x8000 then 0x20 else if a = 0x8001 then 0x40
  else if a = 0x8002 then 0x20 else if a = 0x2040 then 0x60 else 0

/-- LDA immediate 0x2A at the reset address (costs 2 cycles). -/
def c6mem : Mem := fun a =>
  if a = 0xFFFC then 0xA9 else if a = 0xFFFD then 0x2A else 0

/-- CPU with X = 0x10 for the absolute-indexed load experiment. -/
def c7cpu : Cpu := { Cpu.default with registerX := 0x10 }

/-- LDA absolute,X with base 0x8040 at the reset address; the indexed
address 0x8050 holds 0x32. -/
def c7mem : Mem := fun a =>
  if a = 0xFFFC then 0xBD else if a = 0xFFFD then 0x40
  else if a = 0xFFFE then 0x80 else if a = 0x8050 then 0x32 else 0

/-- Memory filled with the unassigned opcode byte 0x02. -/
def c8mem : Mem := fun _ => 0x02

/-- CPU at 0x8000 with X = 0 and all flags clear, for the TXS experiment. -/
def c9cpu : Cpu := { Cpu.default with programCounter := 0x8000 }

/-- TXS at 0x8000. -/
def c9mem : Mem := fun a => if a = 0x8000 then 0x9A else 0

/-- Wrapping u32 subtraction agrees with truncated subtraction whenever
the budget is large enough and in the u32 range. -/
theorem wsub_sub (c k : Nat) (h1 : k ≤ c) (h2 : c < 4294967296) :
    wsub c k = c - k := by
  unfold wsub
  omega

/-- Shifting right distributes over bitwise xor. -/
theorem shiftRight_xor (a b n : Nat) :
    (a ^^^ b) >>> n = a >>> n ^^^ b >>> n := by
  apply Nat.eq_of_testBit_eq
  intro i
  simp [Nat.testBit_shiftRight, Nat.testBit_xor]

/-- The xor page-cross test of the source is exactly a high-byte
comparison: the xor shifted right by 8 vanishes iff both addresses have
the same high byte. -/
theorem page_cross_check (a b : Nat) :
    ((a ^^^ b) >>> 8 = 0) ↔ a / 256 = b / 256 := by
  rw [shiftRight_xor, Nat.xor_eq_zero]
  simp [Nat.shiftRight_eq_div_pow]

/-- Executing JSR: the CPU afterwards has the stack pointer advanced twice
with 8-bit wrap and the program counter at the fetched 16-bit target. -/
theorem jsr_cpu_eq (cpu : Cpu) (mem : Mem) (c : Nat)
    (hop : mem.read cpu.programCounter = 0x20)
    (hpc : cpu.programCounter + 3 < 65536) :
    (execute_single cpu mem c).cpu =
      { cpu with
          stackPointer := ((cpu.stackPointer + 1) % 256 + 1) % 256
          programCounter := mem.read (cpu.programCounter + 2) * 256 +
            mem.read (cpu.programCounter + 1) } := by
  obtain ⟨pc, sp, ra, rx, ry, fl, md⟩ := cpu
  simp only at hop hpc
  unfold execute_single
  simp only [fetch_byte]
  rw [hop]
  simp only [exec_op]
  norm_num
  simp only [fetch_word, fetch_byte, write_byte, read_byte, Mem.read,
    Mem.write, wsub]
  have h1 : (pc + 1) % 65536 = pc + 1 := by omega
  rw [h1]
  have h2 : (pc + 1 + 1) % 65536 = pc + 2 := by omega
  rw [h2]
  exact ⟨rfl, trivial, trivial, trivial, trivial, trivial, trivial⟩

/-- Executing JSR: the memory afterwards holds the low byte of the address
after the call operand bytes (call opcode address plus three) at the first
stack slot and its high byte at the second. -/
theorem jsr_mem_eq (cpu : Cpu) (mem : Mem) (c : Nat)
    (hop : mem.read cpu.programCounter = 0x20)
    (hpc : cpu.programCounter + 3 < 65536) :
    (execute_single cpu mem c).mem =
      (mem.write (0x0100 + cpu.stackPointer)
          ((cpu.programCounter + 3) % 256)).write
        (0x0100 + (cpu.stackPointer + 1) % 256)
        ((cpu.programCounter + 3) / 256) := by
  obtain ⟨pc, sp, ra, rx, ry, fl, md⟩ := cpu
  simp only at hop hpc
  unfold execute_single
  simp only [fetch_byte]
  rw [hop]
  simp only [exec_op]
  norm_num
  simp only [fetch_word, fetch_byte, write_byte, read_byte, Mem.read,
    Mem.write, wsub]
  have h1 : (pc + 1) % 65536 = pc + 1 := by omega
  rw [h1]
  have h2 : (pc + 1 + 1) % 65536 = pc + 2 := by omega
  rw [h2]
  have h3 : (pc + 2 + 1) % 65536 = pc + 3 := by omega
  rw [h3]

/-- Executing JSR consumes 6 cycles. -/
theorem jsr_cycles_eq (cpu : Cpu) (mem : Mem) (c : Nat)
    (hop : mem.read cpu.programCounter = 0x20)
    (hc : 6 ≤ c) (hM : c < 4294967296) :
    (execute_single cpu mem c).cycles = c - 6 := by
  unfold execute_single
  simp only [fetch_byte]
  rw [hop]
  simp only [exec_op]
  norm_num
  simp only [fetch_word, fetch_byte, write_byte, read_byte, Mem.read,
    Mem.write, wsub]
  omega

/-- Executing RTS: the CPU afterwards has the stack pointer decremented
twice with 8-bit wrap and the program counter rebuilt from the two popped
bytes, high byte first, with no increment. -/
theorem rts_cpu_eq (cpu : Cpu) (mem : Mem) (c : Nat)
    (hop : mem.read cpu.programCounter = 0x60) :
    (execute_single cpu mem c).cpu =
      { cpu with
          programCounter :=
            mem.read (0x0100 + (cpu.stackPointer + 255) % 256) * 256 +
            mem.read (0x0100 + ((cpu.stackPointer + 255) % 256 + 255) % 256)
          stackPointer := ((cpu.stackPointer + 255) % 256 + 255) % 256 } := by
  obtain ⟨pc, sp, ra, rx, ry, fl, md⟩ := cpu
  simp only at hop
  unfold execute_single
  simp only [fetch_byte]
  rw [hop]
  simp only [exec_op]
  norm_num
  simp only [stack_pop, read_byte, Mem.read, Mem.write, wsub]
  have e : ((sp + 255) % 256 + 255) % 256 = (sp + 255 + 255) % 256 := by
    omega
  rw [e]
  exact ⟨rfl, rfl, trivial, trivial, trivial, trivial, trivial⟩

/-- Executing RTS leaves memory unchanged. -/
theorem rts_mem_eq (cpu : Cpu) (mem : Mem) (c : Nat)
    (hop : mem.read cpu.programCounter = 0x60) :
    (execute_single cpu mem c).mem = mem := by
  unfold execute_single
  simp only [fetch_byte]
  rw [hop]
  simp only [exec_op]
  norm_num

/-- Executing RTS consumes 6 cycles. -/
theorem rts_cycles_eq (cpu : Cpu) (mem : Mem) (c : Nat)
    (hop : mem.read cpu.programCounter = 0x60)
    (hc : 6 ≤ c) (hM : c < 4294967296) :
    (execute_single cpu mem c).cycles = c - 6 := by
  unfold execute_single
  simp only [fetch_byte]
  rw [hop]
  simp only [exec_op]
  norm_num
  simp only [stack_pop, read_byte, Mem.read, Mem.write, wsub]
  omega

/-- Claim C1: in the legacy (Mos) operating mode the indirect jump was
claimed to read the high byte from pointer + 1 whenever the pointer's low
byte is not 0xFF.  The code instead reads the high byte from
pointer & 0xFF00 unconditionally: with the pointer 0x4020 (low byte 0x20,
not 0xFF), the correct high byte 0x70 sitting at 0x4021, and 0x12 at the
page start 0x4000, the jump lands at 0x1260, not at 0x7060 as the claim
(and the source's own OperatingMode documentation) requires. -/
theorem jmp_indirect_mos_highbyte_from_page_start :
    (execute_single c1cpu c1mem 5).cpu.programCounter = 0x1260 ∧
    (execute_single c1cpu c1mem 5).cpu.programCounter ≠ 0x7060 ∧
    (0x20 : Nat) ≠ 0xFF := by decide

/-- Claim C2: the bit test was claimed to set Zero from
(operand AND accumulator = 0) and Overflow/Negative from bits 6/7 of the
raw operand.  The code ors the operand with the accumulator and takes all
three flags from that OR: with accumulator 0x40 and operand 0x00 the AND
is zero (so the claim requires Zero set and Overflow clear, since bit 6 of
the raw operand 0x00 is clear), yet the code leaves Zero clear and sets
Overflow. -/
theorem bit_test_or_semantics :
    (execute_single c2cpu c2mem 3).cpu.flags.zero = false ∧
    (execute_single c2cpu c2mem 3).cpu.flags.overflow = true ∧
    (0x00 &&& 0x40 : Nat) = 0 ∧ ((0x00 : Nat) &&& (1 <<< 6)) = 0 := by
  decide

/-- Claim C3, counterexample: after the subroutine call at 0x8000 the two
pushed stack bytes encode 0x8003 (the next instruction), not 0x8002 (the
last byte of the call instruction) as the claim states. -/
theorem jsr_pushed_address_not_call_plus_two :
    (execute_single c4cpu c4mem 6).mem.read 0x0141 * 256 +
      (execute_single c4cpu c4mem 6).mem.read 0x0140 = 0x8003 ∧
    ¬((execute_single c4cpu c4mem 6).mem.read 0x0141 * 256 +
      (execute_single c4cpu c4mem 6).mem.read 0x0140 = 0x8002) := by decide

/-- Claim C3, amended: after the subroutine call the two pushed bytes
encode the address of the instruction directly following the call (call
opcode address plus three), low byte at the first stack slot and high byte
at the second, and the program counter equals the 16-bit target operand;
the instruction consumes 6 cycles. -/
theorem jsr_pushes_call_plus_three (cpu : Cpu) (mem : Mem) (c : Nat)
    (hop : mem.read cpu.programCounter = 0x20)
    (hpc : cpu.programCounter + 3 < 65536)
    (hc : 6 ≤ c) (hM : c < 4294967296) :
    (execute_single cpu mem c).mem.read (0x0100 + cpu.stackPointer) =
      (cpu.programCounter + 3) % 256 ∧
    (execute_single cpu mem c).mem.read
        (0x0100 + (cpu.stackPointer + 1) % 256) =
      (cpu.programCounter + 3) / 256 ∧
    (execute_single cpu mem c).mem.read
          (0x0100 + (cpu.stackPointer + 1) % 256) * 256 +
        (execute_single cpu mem c).mem.read (0x0100 + cpu.stackPointer) =
      cpu.programCounter + 3 ∧
    (execute_single cpu mem c).cpu.programCounter =
      mem.read (cpu.programCounter + 2) * 256 +
        mem.read (cpu.programCounter + 1) ∧
    (execute_single cpu mem c).cycles = c - 6 := by
  unfold execute_single
  simp only [fetch_byte]
  rw [hop]
  simp only [exec_op]
  norm_num
  simp only [fetch_word, fetch_byte, write_byte, read_byte, Mem.read,
    Mem.write, wsub]
  have h1 : (cpu.programCounter + 1) % 65536 = cpu.programCounter + 1 := by
    omega
  rw [h1]
  have h2 : (cpu.programCounter + 1 + 1) % 65536 = cpu.programCounter + 2 :=
    by omega
  rw [h2]
  have h3 : (cpu.programCounter + 2 + 1) % 65536 = cpu.programCounter + 3 :=
    by omega
  rw [h3]
  split_ifs <;> omega

/-- Claim C3, witness: the amended claim at the concrete call from 0x8000
to 0x2040 with stack pointer 0x40 and budget 6. -/
theorem jsr_pushes_call_plus_three_witness :
    c4mem.read c4cpu.programCounter = 0x20 ∧
    ((execute_single c4cpu c4mem 6).mem.read (0x0100 + c4cpu.stackPointer) =
        (c4cpu.programCounter + 3) % 256 ∧
      (execute_single c4cpu c4mem 6).mem.read
          (0x0100 + (c4cpu.stackPointer + 1) % 256) =
        (c4cpu.programCounter + 3) / 256 ∧
      (execute_single c4cpu c4mem 6).mem.read
            (0x0100 + (c4cpu.stackPointer + 1) % 256) * 256 +
          (execute_single c4cpu c4mem 6).mem.read
            (0x0100 + c4cpu.stackPointer) =
        c4cpu.programCounter + 3 ∧
      (execute_single c4cpu c4mem 6).cpu.programCounter =
        c4mem.read (c4cpu.programCounter + 2) * 256 +
          c4mem.read (c4cpu.programCounter + 1) ∧
      (execute_single c4cpu c4mem 6).cycles = 6 - 6) :=
  ⟨by decide,
    jsr_pushes_call_plus_three c4cpu c4mem 6 (by decide) (by decide)
      (by decide) (by decide)⟩

/-- Claim C4: a subroutine call followed immediately at the target by a
return leaves the program counter at the instruction directly following
the call (call opcode address plus three), restores the stack pointer to
its pre-call value, and consumes 12 cycles, provided the return
instruction is not overwritten by the pushed return address. -/
theorem jsr_rts_round_trip (cpu : Cpu) (mem : Mem) (c : Nat)
    (hjsr : mem.read cpu.programCounter = 0x20)
    (hpc : cpu.programCounter + 3 < 65536)
    (hsp : cpu.stackPointer < 256)
    (hrts : mem.read (mem.read (cpu.programCounter + 2) * 256 +
      mem.read (cpu.programCounter + 1)) = 0x60)
    (ht1 : mem.read (cpu.programCounter + 2) * 256 +
      mem.read (cpu.programCounter + 1) ≠ 0x0100 + cpu.stackPointer)
    (ht2 : mem.read (cpu.programCounter + 2) * 256 +
      mem.read (cpu.programCounter + 1) ≠
      0x0100 + (cpu.stackPointer + 1) % 256)
    (hc : 12 ≤ c) (hM : c < 4294967296) :
    (execute_single (execute_single cpu mem c).cpu
        (execute_single cpu mem c).mem
        (execute_single cpu mem c).cycles).cpu.programCounter =
      cpu.programCounter + 3 ∧
    (execute_single (execute_single cpu mem c).cpu
        (execute_single cpu mem c).mem
        (execute_single cpu mem c).cycles).cpu.stackPointer =
      cpu.stackPointer ∧
    (execute_single (execute_single cpu mem c).cpu
        (execute_single cpu mem c).mem
        (execute_single cpu mem c).cycles).cycles = c - 12 := by
  obtain ⟨pc, sp, ra, rx, ry, fl, md⟩ := cpu
  simp only at hjsr hpc hsp hrts ht1 ht2
  rw [jsr_cpu_eq _ mem c hjsr hpc, jsr_mem_eq _ mem c hjsr hpc,
    jsr_cycles_eq _ mem c hjsr (by omega) hM]
  have hop2 :
      ((mem.write (0x0100 + sp) ((pc + 3) % 256)).write
          (0x0100 + (sp + 1) % 256) ((pc + 3) / 256)).read
        (mem.read (pc + 2) * 256 + mem.read (pc + 1)) = 0x60 := by
    simp only [Mem.read, Mem.write] at hrts ht1 ht2 ⊢
    rw [if_neg ht2, if_neg ht1]
    exact hrts
  rw [rts_cpu_eq _ _ _ hop2, rts_cycles_eq _ _ _ hop2 (by omega) (by omega)]
  simp only [Mem.read, Mem.write]
  refine ⟨?_, by omega, by omega⟩
  split_ifs <;> omega

/-- Claim C4, witness: the round trip at the concrete call from 0x8000 to
0x2040 (the spec's own example target), stack pointer 0x40, budget 12. -/
theorem jsr_rts_round_trip_witness :
    c4mem.read c4cpu.programCounter = 0x20 ∧
    c4mem.read (c4mem.read (c4cpu.programCounter + 2) * 256 +
      c4mem.read (c4cpu.programCounter + 1)) = 0x60 ∧
    ((execute_single (execute_single c4cpu c4mem 12).cpu
          (execute_single c4cpu c4mem 12).mem
          (execute_single c4cpu c4mem 12).cycles).cpu.programCounter =
        c4cpu.programCounter + 3 ∧
      (execute_single (execute_single c4cpu c4mem 12).cpu
          (execute_single c4cpu c4mem 12).mem
          (execute_single c4cpu c4mem 12).cycles).cpu.stackPointer =
        c4cpu.stackPointer ∧
      (execute_single (execute_single c4cpu c4mem 12).cpu
          (execute_single c4cpu c4mem 12).mem
          (execute_single c4cpu c4mem 12).cycles).cycles = 12 - 12) :=
  ⟨by decide, by decide,
    jsr_rts_round_trip c4cpu c4mem 12 (by decide) (by decide) (by decide)
      (by decide) (by decide) (by decide) (by decide) (by decide)⟩

/-- Claim C5: subtract-with-carry produces exactly the same accumulator
result, Carry flag and Overflow flag as add-with-carry applied to the
bitwise complement of the operand, for every CPU state (hence every prior
Carry) and every operand. -/
theorem sbc_equals_adc_of_complement (cpu : Cpu) (value : Nat) :
    (subtract_with_carry cpu value).registerAccumulator =
      (add_with_carry cpu (u8not value)).registerAccumulator ∧
    (subtract_with_carry cpu value).flags.carry =
      (add_with_carry cpu (u8not value)).flags.carry ∧
    (subtract_with_carry cpu value).flags.overflow =
      (add_with_carry cpu (u8not value)).flags.overflow :=
  ⟨rfl, rfl, rfl⟩

/-- Claim C6, counterexample: the cycle counter is an unsigned 32-bit
value, so an over-spend cannot return a negative number.  Executing the
2-cycle load-immediate with budget 1 returns 4294967295 = 2^32 - 1 (the
wrapped two's-complement pattern of -1), a value that is neither negative
nor clamped to zero. -/
theorem overspend_returns_wrapped_not_negative :
    (execute_single Cpu.default c6mem 1).cycles = 4294967295 ∧
    2147483648 ≤ (execute_single Cpu.default c6mem 1).cycles ∧
    (execute_single Cpu.default c6mem 1).cycles ≠ 0 := by decide

/-- Claim C6, amended: on the 2-cycle load-immediate program the returned
budget is (budget - 2) computed by wrapping subtraction modulo 2^32; when
the budget is over-spent (budget below 2) the result is at least 2^31 (the
two's-complement encoding of the negative difference) instead of being
clamped at zero. -/
theorem overspend_wraps_modulo_two_pow_32 (c : Nat) (hM : c < 4294967296) :
    (execute_single Cpu.default c6mem c).cycles =
      (c + 4294967294) % 4294967296 ∧
    (c < 2 → 2147483648 ≤ (execute_single Cpu.default c6mem c).cycles) := by
  unfold execute_single
  simp only [Cpu.default, fetch_byte]
  rw [(by decide : Mem.read c6mem 0xFFFC = 0xA9)]
  simp only [exec_op]
  norm_num
  simp only [fetch_byte, Mem.read, wsub]
  constructor
  · omega
  · intro h
    omega

/-- Claim C6, witness: the amended claim at budget 1. -/
theorem overspend_wraps_modulo_two_pow_32_witness :
    (execute_single Cpu.default c6mem 1).cycles =
      (1 + 4294967294) % 4294967296 ∧
    (1 < 2 → 2147483648 ≤ (execute_single Cpu.default c6mem 1).cycles) :=
  overspend_wraps_modulo_two_pow_32 1 (by decide)

/-- Claim C7: a load through X-indexed absolute addressing consumes
exactly 4 cycles when the base address and the indexed address share the
same high byte and exactly 5 cycles when indexing crosses a 256-byte page
boundary. -/
theorem lda_absolute_x_cycle_cost (cpu : Cpu) (mem : Mem) (c : Nat)
    (hop : mem.read cpu.programCounter = 0xBD)
    (hpc : cpu.programCounter + 2 < 65536)
    (hc : 5 ≤ c) (hM : c < 4294967296) :
    (execute_single cpu mem c).cycles =
      c - (if (mem.read (cpu.programCounter + 2) * 256 +
            mem.read (cpu.programCounter + 1) + cpu.registerX) % 65536 / 256 =
            (mem.read (cpu.programCounter + 2) * 256 +
            mem.read (cpu.programCounter + 1)) / 256 then 4 else 5) := by
  unfold execute_single
  simp only [fetch_byte]
  rw [hop]
  simp only [exec_op]
  norm_num
  simp only [addr_absolute_x, fetch_word, fetch_byte, load_register,
    read_byte, set_register, set_zero_flag, set_negative_flag, Mem.read]
  have hb1 : (cpu.programCounter + 1) % 65536 = cpu.programCounter + 1 :=
    Nat.mod_eq_of_lt (by omega)
  rw [hb1]
  have hb2 : (cpu.programCounter + 1 + 1) % 65536 = cpu.programCounter + 2 :=
    by omega
  rw [hb2]
  split_ifs with h1 h2 h3
  · exact absurd ((page_cross_check _ _).mpr h2.symm) h1
  · simp only [wsub]
    omega
  · simp only [wsub]
    omega
  · exact absurd (((page_cross_check _ _).mp (not_not.mp h1)).symm) h3

/-- Claim C7, witness: the cost rule at the concrete load with base 0x8040
and X = 0x10 (no page cross) and budget 9. -/
theorem lda_absolute_x_cycle_cost_witness :
    c7mem.read c7cpu.programCounter = 0xBD ∧
    (execute_single c7cpu c7mem 9).cycles =
      9 - (if (c7mem.read (c7cpu.programCounter + 2) * 256 +
            c7mem.read (c7cpu.programCounter + 1) + c7cpu.registerX) %
              65536 / 256 =
            (c7mem.read (c7cpu.programCounter + 2) * 256 +
            c7mem.read (c7cpu.programCounter + 1)) / 256 then 4 else 5) :=
  ⟨by decide,
    lda_absolute_x_cycle_cost c7cpu c7mem 9 (by decide) (by decide)
      (by decide) (by decide)⟩

/-- Claim C8: for every opcode byte outside the assigned set and every
budget of at least one cycle, execute_single only advances the program
counter by one (16-bit wrap) and charges the single opcode-fetch cycle;
registers, stack pointer, flags and memory are untouched. -/
theorem illegal_opcode_noop (b : Nat) (cpu : Cpu) (mem : Mem) (c : Nat)
    (hb : b < 256) (hun : b ∉ assigned_opcodes)
    (hop : mem.read cpu.programCounter = b)
    (h1 : 1 ≤ c) (hM : c < 4294967296) :
    execute_single cpu mem c =
      ⟨{ cpu with programCounter := (cpu.programCounter + 1) % 65536 },
        mem, c - 1⟩ := by
  unfold execute_single
  simp only [fetch_byte]
  rw [hop, wsub_sub c 1 h1 hM]
  simp only [assigned_opcodes, List.mem_cons, List.not_mem_nil, or_false,
    not_or] at hun
  obtain ⟨n1, n2, n3, n4, n5, n6, n7, n8, n9, n10, n11, n12, n13, n14, n15,
    n16, n17, n18, n19, n20, n21, n22, n23, n24, n25, n26, n27, n28, n29,
    n30, n31, n32, n33, n34, n35, n36, n37, n38, n39, n40, n41, n42, n43,
    n44, n45, n46, n47, n48, n49, n50, n51, n52, n53, n54, n55, n56, n57,
    n58, n59, n60, n61, n62, n63, n64, n65, n66, n67, n68, n69, n70, n71,
    n72, n73, n74, n75, n76, n77, n78, n79, n80, n81, n82, n83, n84, n85,
    n86, n87, n88, n89, n90, n91, n92, n93, n94, n95, n96, n97, n98, n99,
    n100, n101, n102, n103, n104, n105, n106, n107, n108, n109, n110, n111,
    n112, n113, n114, n115, n116, n117, n118, n119, n120, n121, n122, n123,
    n124, n125, n126, n127, n128, n129, n130, n131, n132, n133, n134, n135,
    n136, n137, n138, n139, n140, n141, n142, n143, n144, n145, n146, n147,
    n148, n149, n150, n151⟩ := hun
  simp only [exec_op, n1, n2, n3, n4, n5, n6, n7, n8, n9, n10, n11, n12,
    n13, n14, n15, n16, n17, n18, n19, n20, n21, n22, n23, n24, n25, n26,
    n27, n28, n29, n30, n31, n32, n33, n34, n35, n36, n37, n38, n39, n40,
    n41, n42, n43, n44, n45, n46, n47, n48, n49, n50, n51, n52, n53, n54,
    n55, n56, n57, n58, n59, n60, n61, n62, n63, n64, n65, n66, n67, n68,
    n69, n70, n71, n72, n73, n74, n75, n76, n77, n78, n79, n80, n81, n82,
    n83, n84, n85, n86, n87, n88, n89, n90, n91, n92, n93, n94, n95, n96,
    n97, n98, n99, n100, n101, n102, n103, n104, n105, n106, n107, n108,
    n109, n110, n111, n112, n113, n114, n115, n116, n117, n118, n119, n120,
    n121, n122, n123, n124, n125, n126, n127, n128, n129, n130, n131, n132,
    n133, n134, n135, n136, n137, n138, n139, n140, n141, n142, n143, n144,
    n145, n146, n147, n148, n149, n150, n151, if_false]

/-- Claim C8, witness: the no-op rule for the unassigned opcode byte 0x02
with budget 7. -/
theorem illegal_opcode_noop_witness :
    (0x02 : Nat) ∉ assigned_opcodes ∧
    execute_single Cpu.default c8mem 7 =
      ⟨{ Cpu.default with
          programCounter := (Cpu.default.programCounter + 1) % 65536 },
        c8mem, 7 - 1⟩ :=
  ⟨by decide,
    illegal_opcode_noop 0x02 Cpu.default c8mem 7 (by decide) (by decide)
      (by decide) (by decide) (by decide)⟩

/-- Claim C9: the X-to-stack-pointer transfer was claimed to leave the
Zero and Negative flags unchanged.  The code routes it through
set_register, which updates both flags from the written value: with X = 0
and all flags initially clear, executing TXS sets the Zero flag. -/
theorem txs_updates_zero_negative_flags :
    c9cpu.flags.zero = false ∧
    (execute_single c9cpu c9mem 2).cpu.flags.zero = true ∧
    (execute_single c9cpu c9mem 2).cpu.stackPointer = 0 ∧
    (execute_single c9cpu c9mem 2).cpu.registerX = 0 := by decide

/-- Claim C10: for every 8-bit value stored into the accumulator or an
index register through set_register, the Zero flag afterwards holds
exactly when the value is zero and the Negative flag exactly when bit 7 of
the value is set. -/
theorem set_register_flag_rule (cpu : Cpu) (register : Register) (v : Nat)
    (hreg : register ≠ Register.S) (hv : v < 256) :
    ((set_register cpu register v).flags.zero = true ↔ v = 0) ∧
    ((set_register cpu register v).flags.negative = true ↔
      v &&& 128 ≠ 0) := by
  cases register with
  | S => exact absurd rfl hreg
  | A =>
    simp only [set_register, set_zero_flag, set_negative_flag]
    split_ifs with h1 h2 <;> simp_all
  | X =>
    simp only [set_register, set_zero_flag, set_negative_flag]
    split_ifs with h1 h2 <;> simp_all
  | Y =>
    simp only [set_register, set_zero_flag, set_negative_flag]
    split_ifs with h1 h2 <;> simp_all

/-- Claim C10, witness: the flag rule for the value 0x80 written to X. -/
theorem set_register_flag_rule_witness :
    ((set_register Cpu.default Register.X 0x80).flags.zero = true ↔
      (0x80 : Nat) = 0) ∧
    ((set_register Cpu.default Register.X 0x80).flags.negative = true ↔
      (0x80 : Nat) &&& 128 ≠ 0) :=
  set_register_flag_rule Cpu.default Register.X 0x80 (by decide) (by decide)
